import Mathlib

/-!
# Verification of the `function-proxy` HTTP forwarding proxy

Shallow embedding of `src/function_app.py`: the allowlist pattern matcher
(`compile_patterns` / `is_allowed`), the target resolver, the query merger,
the header rewriter and both request handlers (`proxy_function`,
`odata_proxy_function`), together with theorems settling the specification
claims.

Conventions:
* Python `dict[str, str]` values (`req.params`, `req.headers`, outbound
  header dicts) are embedded as association lists `List (String × String)`
  in insertion order; `dictInsert` mirrors Python's `d[k] = v` (replace in
  place on an existing key, append otherwise).
* Raw byte payloads (request/response bodies) are inert pass-through data
  for every claim, so they are embedded as `String`.
* A fallible body read (`req.get_body()`) is an `Except String String`.
* The downstream `requests.request` call is an oracle parameter: it either
  returns a response, raises `requests.exceptions.RequestException`, or
  raises some other exception.
-/

namespace FunctionProxy

/-! ## Python `str` primitives

Models of the Python string methods the handlers use, written over the
character list of the string (for the ASCII data the proxy handles,
`Char.toLower`/`Char.toUpper` agree with Python's `str.lower`/`str.upper`). -/

/-- Python `s.lower()`. -/
def pyLower (s : String) : String := String.mk (s.data.map Char.toLower)

/-- Python `s.upper()`. -/
def pyUpper (s : String) : String := String.mk (s.data.map Char.toUpper)

/-- Python `s.startswith(pre)`. -/
def pyStartsWith (s pre : String) : Bool := pre.data.isPrefixOf s.data

/-- Python `c in s` for a single character. -/
def pyContainsChar (s : String) (c : Char) : Bool := s.data.contains c

/-- Python truthiness of a string: non-empty. -/
def pyNonEmpty (s : String) : Bool := !s.data.isEmpty

/-! ## Python `re` semantics for the compiled allowlist patterns

`compile_patterns` builds `re.compile("^" + re.escape(p).replace("\\*", ".*") + "$", re.IGNORECASE)`.
After `re.escape`, every character of the original pattern is a literal
except that each original `*` has become the wildcard `.*`.  So the compiled
regex is a sequence of case-insensitive literal characters and `.*` blocks,
anchored on both sides.  Python specifics embedded here:
* `.` matches any character except `'\n'`;
* `$` matches at the end of the subject or just before a trailing `'\n'`;
* `re.IGNORECASE` compares characters through lowercasing.
-/

/-- Subjects at which Python's `$` anchor succeeds when the whole pattern has
been consumed: the empty rest, or a single trailing newline. -/
def dollarAccepts : List Char → Bool
  | [] => true
  | [c] => c = '\n'
  | _ => false

/-- The rests of `s` reachable by letting `.*` consume a prefix of `s`
(`.` cannot consume `'\n'`), longest rest first. -/
def starSuffixes : List Char → List (List Char)
  | [] => [[]]
  | c :: s => (c :: s) :: (if c = '\n' then [] else starSuffixes s)

/-- Matching of one compiled allowlist pattern (characters of the original
pattern string; `'*'` stands for the `.*` block `re.escape`+`replace`
produced from it) against a subject, with Python `re.match` semantics for
`^...$`, `.` and `re.IGNORECASE` as described above. -/
def pyGlobMatch : List Char → List Char → Bool
  | [], s => dollarAccepts s
  | a :: ps, s =>
    if a = '*' then (starSuffixes s).any (fun t => pyGlobMatch ps t)
    else
      match s with
      | [] => false
      | c :: s' => (a.toLower = c.toLower) && pyGlobMatch ps s'

/-- All rests of `s` reachable by dropping an arbitrary prefix. -/
def allSuffixes : List Char → List (List Char)
  | [] => [[]]
  | c :: s => (c :: s) :: allSuffixes s

/-- Glob matching exactly as the specification words it: `*` matches any run
of characters, every literal character must match exactly
(case-insensitively), anchored at both ends. -/
def specGlobMatch : List Char → List Char → Bool
  | [], s => s.isEmpty
  | a :: ps, s =>
    if a = '*' then (allSuffixes s).any (fun t => specGlobMatch ps t)
    else
      match s with
      | [] => false
      | c :: s' => (a.toLower = c.toLower) && specGlobMatch ps s'

/-! ## Host extraction (`urllib.parse.urlparse` as used by `is_allowed`)

`is_allowed` computes `parsed = urlparse(endpoint)`, then
`domain = parsed.netloc or parsed.path.split("/")[0]`, then strips an
embedded port.  The fragment of `urlparse` that this consumes (`netloc` and
`path`) is modelled from CPython's `urlsplit`/`urlparse`: removal of the
unsafe bytes `'\t'`, `'\r'`, `'\n'`; scheme detection (a leading run of
scheme characters starting with an ASCII letter, up to a `':'`); `//`-led
authority up to the first of `/?#`; fragment and query stripping; and the
`;`-parameter split on the last path segment for schemes in `uses_params`.
The model is total: the `ValueError` CPython raises for mismatched IPv6
brackets in the authority is not modelled (such authorities are simply
carried through as text). -/

/-- CPython `scheme_chars`: letters, digits and `+-.` . -/
def isSchemeChar (c : Char) : Bool :=
  c.isAlpha || c.isDigit || c = '+' || c = '-' || c = '.'

/-- Remove the unsafe bytes `'\t'`, `'\r'`, `'\n'` (CPython
`_UNSAFE_URL_BYTES_TO_REMOVE`). -/
def removeUnsafeChars (s : List Char) : List Char :=
  s.filter (fun c => !(c = '\t' || c = '\r' || c = '\n'))

/-- Split off a leading `scheme:` if present; returns the (lowercased)
scheme and the rest of the URL. -/
def splitSchemeChars (s : List Char) : String × List Char :=
  match s.findIdx? (fun c => c = ':') with
  | some i =>
    let headAlpha : Bool := match s.head? with | some c => c.isAlpha | none => false
    if 0 < i ∧ (s.take i).all isSchemeChar ∧ headAlpha then
      (String.mk ((s.take i).map Char.toLower), s.drop (i + 1))
    else ("", s)
  | none => ("", s)

/-- If the rest starts with `//`, split the authority (up to the first of
`/?#`) from what follows it (CPython `_splitnetloc`). -/
def splitNetlocChars : List Char → List Char × List Char
  | '/' :: '/' :: rest =>
    (rest.takeWhile (fun c => !(c = '/' || c = '?' || c = '#')),
     rest.dropWhile (fun c => !(c = '/' || c = '?' || c = '#')))
  | s => ([], s)

/-- CPython `uses_params`: schemes whose last path segment may carry
`;parameters` split off by `urlparse`. -/
def usesParamsSchemes : List String :=
  ["", "ftp", "hdl", "prospero", "http", "imap", "https", "shttp", "rtsp",
   "rtspu", "sip", "sips", "mms", "sftp", "tel"]

/-- CPython `_splitparams`: drop the `;parameters` suffix of the last path
segment (the whole path when it has no `/`). -/
def splitParamsChars (u : List Char) : List Char :=
  if u.contains '/' then
    let j := u.length - 1 - ((u.reverse.findIdx? (fun c => c = '/')).getD 0)
    match (u.drop j).findIdx? (fun c => c = ';') with
    | some k => u.take (j + k)
    | none => u
  else u.takeWhile (fun c => c ≠ ';')

structure ParsedUrl where
  scheme : String
  netloc : String
  path : String
deriving Repr, DecidableEq

/-- The `scheme`/`netloc`/`path` fragment of `urllib.parse.urlparse`. -/
def urlparseModel (url : String) : ParsedUrl :=
  let s0 := removeUnsafeChars url.data
  let sr := splitSchemeChars s0
  let nr := splitNetlocChars sr.2
  let noFragment := nr.2.takeWhile (fun c => c ≠ '#')
  let noQuery := noFragment.takeWhile (fun c => c ≠ '?')
  let path :=
    if usesParamsSchemes.contains sr.1 && noQuery.contains ';' then
      splitParamsChars noQuery
    else noQuery
  { scheme := sr.1, netloc := String.mk nr.1, path := String.mk path }

/-- Host extraction of `is_allowed`:
`domain = parsed.netloc or parsed.path.split("/")[0]`, then
`domain = domain.split(':')[0]` when a `':'` is embedded. -/
def extractHost (endpoint : String) : String :=
  let parsed := urlparseModel endpoint
  let domain :=
    if parsed.netloc ≠ "" then parsed.netloc
    else String.mk (parsed.path.data.takeWhile (fun c => c ≠ '/'))
  if domain.data.contains ':' then
    String.mk (domain.data.takeWhile (fun c => c ≠ ':'))
  else domain

/-! ## The allowlist -/

/-- The `ALLOWED_PATTERNS` list from the source, verbatim. -/
def ALLOWED_PATTERNS : List String :=
  ["api.example.com",
   "services.odata.org",
   "jsonplaceholder.*",
   "*.trusted.com",
   "10.0.1.4",
   "localhost",
   "127.0.0.1",
   "*"]

/-- The `is_allowed` check against an arbitrary configured pattern list:
`compile_patterns` + the first-match loop fuse into `List.any` of
`pyGlobMatch` over the pattern's characters (see the compilation note on
`pyGlobMatch`). -/
def is_allowedWith (patterns : List String) (endpoint : String) : Bool :=
  let domain := extractHost endpoint
  patterns.any (fun pat => pyGlobMatch pat.data domain.data)

/-- The `is_allowed` check with the configured `ALLOWED_PATTERNS`. -/
def is_allowed (endpoint : String) : Bool :=
  is_allowedWith ALLOWED_PATTERNS endpoint

/-! ## Lemmas: the extracted host never contains a newline -/

lemma splitSchemeChars_snd_sublist (s : List Char) :
    List.Sublist (splitSchemeChars s).2 s := by
  unfold splitSchemeChars
  cases h : s.findIdx? (fun c => c = ':') with
  | none => simp
  | some i =>
    simp only []
    split
    · exact List.drop_sublist _ _
    · simp

lemma splitNetlocChars_fst_sublist (s : List Char) :
    List.Sublist (splitNetlocChars s).1 s := by
  unfold splitNetlocChars
  split
  · rename_i rest
    exact ((List.takeWhile_sublist _).trans (List.sublist_cons_self _ _)).trans
      (List.sublist_cons_self _ _)
  · simp

lemma splitNetlocChars_snd_sublist (s : List Char) :
    List.Sublist (splitNetlocChars s).2 s := by
  unfold splitNetlocChars
  split
  · rename_i rest
    exact ((List.dropWhile_sublist _).trans (List.sublist_cons_self _ _)).trans
      (List.sublist_cons_self _ _)
  · simp

lemma splitParamsChars_sublist (u : List Char) :
    List.Sublist (splitParamsChars u) u := by
  unfold splitParamsChars
  split
  · dsimp only
    split
    · exact List.take_sublist _ _
    · simp
  · exact List.takeWhile_sublist _

lemma urlparseModel_netloc_sublist (url : String) :
    List.Sublist (urlparseModel url).netloc.data (removeUnsafeChars url.data) := by
  unfold urlparseModel
  simp only []
  exact (splitNetlocChars_fst_sublist _).trans (splitSchemeChars_snd_sublist _)

lemma urlparseModel_path_sublist (url : String) :
    List.Sublist (urlparseModel url).path.data (removeUnsafeChars url.data) := by
  unfold urlparseModel
  simp only []
  have base : List.Sublist
      (((splitNetlocChars (splitSchemeChars (removeUnsafeChars url.data)).2).2.takeWhile
          (fun c => c ≠ '#')).takeWhile (fun c => c ≠ '?'))
      (removeUnsafeChars url.data) :=
    ((List.takeWhile_sublist _).trans (List.takeWhile_sublist _)).trans
      ((splitNetlocChars_snd_sublist _).trans (splitSchemeChars_snd_sublist _))
  split
  · exact (splitParamsChars_sublist _).trans base
  · exact base

lemma mem_removeUnsafeChars_ne_newline {c : Char} {s : List Char}
    (h : c ∈ removeUnsafeChars s) : c ≠ '\n' := by
  unfold removeUnsafeChars at h
  have := (List.mem_filter.mp h).2
  simp only [Bool.not_eq_true', Bool.or_eq_false_iff, decide_eq_false_iff_not] at this
  exact this.2

/-- No character of the extracted host is a newline: `urlparse` removes the
unsafe bytes `'\t'`, `'\r'`, `'\n'` up front and every later step only
selects characters. -/
lemma extractHost_no_newline (endpoint : String) :
    ∀ c ∈ (extractHost endpoint).data, c ≠ '\n' := by
  intro c hc
  unfold extractHost at hc
  simp only [] at hc
  split at hc <;> split at hc <;>
    first
      | exact mem_removeUnsafeChars_ne_newline
          ((urlparseModel_netloc_sublist endpoint).subset
            ((List.takeWhile_sublist _).subset hc))
      | exact mem_removeUnsafeChars_ne_newline
          ((urlparseModel_netloc_sublist endpoint).subset hc)
      | exact mem_removeUnsafeChars_ne_newline
          ((urlparseModel_path_sublist endpoint).subset
            ((List.takeWhile_sublist _).subset
              ((List.takeWhile_sublist _).subset hc)))
      | exact mem_removeUnsafeChars_ne_newline
          ((urlparseModel_path_sublist endpoint).subset
            ((List.takeWhile_sublist _).subset hc))

/-! ## Lemmas: compiled-regex matching agrees with the spec's glob reading
on newline-free subjects -/

lemma mem_allSuffixes_sublist {t s : List Char} (h : t ∈ allSuffixes s) :
    List.Sublist t s := by
  induction s with
  | nil => simp [allSuffixes] at h; simp [h]
  | cons c s ih =>
    simp only [allSuffixes, List.mem_cons] at h
    rcases h with h | h
    · simp [h]
    · exact (ih h).trans (List.sublist_cons_self _ _)

lemma nil_mem_allSuffixes (s : List Char) : [] ∈ allSuffixes s := by
  induction s with
  | nil => simp [allSuffixes]
  | cons c s ih => simp [allSuffixes, ih]

lemma starSuffixes_eq_allSuffixes {s : List Char} (h : ∀ c ∈ s, c ≠ '\n') :
    starSuffixes s = allSuffixes s := by
  induction s with
  | nil => rfl
  | cons c s ih =>
    have hc : c ≠ '\n' := h c (by simp)
    simp only [starSuffixes, allSuffixes, if_neg hc]
    rw [ih (fun d hd => h d (by simp [hd]))]

lemma dollarAccepts_eq_isEmpty {s : List Char} (h : ∀ c ∈ s, c ≠ '\n') :
    dollarAccepts s = s.isEmpty := by
  match s with
  | [] => rfl
  | [c] =>
    have : c ≠ '\n' := h c (by simp)
    simp [dollarAccepts, this]
  | a :: b :: t => rfl

lemma list_any_congr {l : List (List Char)} {f g : List Char → Bool}
    (h : ∀ a ∈ l, f a = g a) : l.any f = l.any g := by
  induction l with
  | nil => rfl
  | cons a t ih =>
    simp only [List.any_cons, h a (by simp),
      ih (fun b hb => h b (by simp [hb]))]

/-- On newline-free subjects, the compiled-pattern semantics (Python's `.`
and `$` conventions) coincide with the specification's glob reading. -/
lemma pyGlobMatch_eq_specGlobMatch (p : List Char) :
    ∀ s : List Char, (∀ c ∈ s, c ≠ '\n') →
      pyGlobMatch p s = specGlobMatch p s := by
  induction p with
  | nil =>
    intro s hs
    simp only [pyGlobMatch, specGlobMatch]
    exact dollarAccepts_eq_isEmpty hs
  | cons a ps ih =>
    intro s hs
    simp only [pyGlobMatch, specGlobMatch]
    split
    · rw [starSuffixes_eq_allSuffixes hs]
      exact list_any_congr (fun t ht =>
        ih t (fun c hc => hs c ((mem_allSuffixes_sublist ht).subset hc)))
    · match s with
      | [] => rfl
      | c :: s' =>
        simp only []
        rw [ih s' (fun d hd => hs d (by simp [hd]))]

/-- With a bare `*` pattern every newline-free subject matches. -/
lemma specGlobMatch_star (s : List Char) : specGlobMatch ['*'] s = true := by
  simp only [specGlobMatch, if_pos rfl]
  exact List.any_eq_true.mpr ⟨[], nil_mem_allSuffixes s, rfl⟩

/-- C1: for every host string `h`, `is_allowed(h)` (over a configured
pattern list `P`) is true iff some pattern of `P`, read as a glob where `*`
matches any run of characters and every literal character must match
exactly (case-insensitively, anchored at both ends), fully matches the host
extracted from `h`; with an empty pattern list no host is allowed, and with
a `*` entry every host is allowed. -/
theorem allowlist_matches_spec_glob (P : List String) (h : String) :
    (is_allowedWith P h = true ↔
      ∃ pat ∈ P, specGlobMatch pat.data (extractHost h).data = true)
    ∧ is_allowedWith [] h = false
    ∧ ("*" ∈ P → is_allowedWith P h = true) := by
  have heq : ∀ pat : String, pyGlobMatch pat.data (extractHost h).data
      = specGlobMatch pat.data (extractHost h).data :=
    fun pat => pyGlobMatch_eq_specGlobMatch pat.data _ (extractHost_no_newline h)
  refine ⟨?_, rfl, ?_⟩
  · simp only [is_allowedWith]
    rw [List.any_eq_true]
    constructor
    · rintro ⟨pat, hp, hm⟩
      exact ⟨pat, hp, ((heq pat).symm.trans hm)⟩
    · rintro ⟨pat, hp, hm⟩
      exact ⟨pat, hp, ((heq pat).trans hm)⟩
  · intro hstar
    simp only [is_allowedWith]
    refine List.any_eq_true.mpr ⟨"*", hstar, ?_⟩
    exact (heq "*").trans (specGlobMatch_star _)

/-- Witness for C1 at the specification's own example: pattern list
`["*.trusted.com"]` and host `"https://a.trusted.com/x"`. -/
theorem allowlist_matches_spec_glob_witness :
    is_allowedWith ["*.trusted.com", "*"] "https://a.trusted.com/x" = true :=
  (allowlist_matches_spec_glob ["*.trusted.com", "*"]
    "https://a.trusted.com/x").2.2 (by decide)

/-! ## Python dict operations -/

/-- Python `d[k] = v` on an insertion-ordered dict: replace in place when
the (exact) key is present, append otherwise. -/
def dictInsert : List (String × String) → String → String → List (String × String)
  | [], k, v => [(k, v)]
  | kv :: rest, k, v =>
    if kv.1 = k then (k, v) :: rest else kv :: dictInsert rest k v

/-- Python `d.get(k)` on an insertion-ordered dict. -/
def dictGet (d : List (String × String)) (k : String) : Option String :=
  (d.find? (fun kv => kv.1 = k)).map (fun kv => kv.2)

/-- Case-insensitive lookup, as `requests`' `CaseInsensitiveDict.get`. -/
def ciGet (d : List (String × String)) (k : String) : Option String :=
  (d.find? (fun kv => pyLower kv.1 = pyLower k)).map (fun kv => kv.2)

/-! ## Target resolution -/

/-- Python truthiness of `req.params.get('__proxy_scheme')`: a present,
non-empty string. -/
def schemeOverrideTruthy : Option String → Bool
  | none => false
  | some s => pyNonEmpty s

/-- Scheme resolution of the generic route (`proxy_function` lines 62-76):
an endpoint already carrying `http://`/`https://` is used verbatim; else a
truthy `__proxy_scheme` equal (case-insensitively) to `http`/`https` is
prepended; else a truthy override of any other value is the
invalid-scheme error; else the default scheme is `https`. -/
def resolveTarget (endpoint : String) (override : Option String) :
    Except String String :=
  if pyStartsWith endpoint "http://" || pyStartsWith endpoint "https://" then
    .ok endpoint
  else if schemeOverrideTruthy override then
    let s := pyLower (override.getD "")
    if s = "http" || s = "https" then .ok (s ++ "://" ++ endpoint)
    else .error ("Invalid scheme: " ++ override.getD "" ++
      ". Only 'http' and 'https' are allowed.")
  else .ok ("https://" ++ endpoint)

/-- Scheme resolution of the OData route (`odata_proxy_function` lines
164-167): no override parameter is consulted at all. -/
def odataResolveTarget (endpoint : String) : String :=
  if pyStartsWith endpoint "http://" || pyStartsWith endpoint "https://" then
    endpoint
  else "https://" ++ endpoint

/-! ## Query merging (`urllib.parse.urlencode` with `quote_plus`) -/

/-- Characters `urllib.parse.quote` never encodes with `safe=''`
(CPython `_ALWAYS_SAFE`): ASCII letters, digits and `_.-~`. -/
def isAlwaysSafe (c : Char) : Bool :=
  (('A' ≤ c && c ≤ 'Z') || ('a' ≤ c && c ≤ 'z') || ('0' ≤ c && c ≤ '9')
   || c = '_' || c = '.' || c = '-' || c = '~')

/-- Uppercase hex digit. -/
def hexDigitUpper (n : Nat) : Char :=
  if n < 10 then Char.ofNat (48 + n) else Char.ofNat (55 + n)

/-- The `%XX` escape of one byte. -/
def pctByte (b : Nat) : String :=
  String.mk ['%', hexDigitUpper (b / 16), hexDigitUpper (b % 16)]

/-- The UTF-8 bytes of one character. -/
def utf8Bytes (c : Char) : List Nat :=
  let n := c.toNat
  if n < 0x80 then [n]
  else if n < 0x800 then [0xC0 + n / 64, 0x80 + n % 64]
  else if n < 0x10000 then
    [0xE0 + n / 4096, 0x80 + n / 64 % 64, 0x80 + n % 64]
  else
    [0xF0 + n / 262144, 0x80 + n / 4096 % 64, 0x80 + n / 64 % 64,
     0x80 + n % 64]

/-- Model of `urllib.parse.quote_plus` on one character: space becomes `+`, safe
characters pass through, everything else is the `%XX` escapes of its UTF-8
bytes. -/
def quotePlusChar (c : Char) : String :=
  if c = ' ' then "+"
  else if isAlwaysSafe c then String.singleton c
  else String.join ((utf8Bytes c).map pctByte)

/-- Model of `urllib.parse.quote_plus`. -/
def quote_plus (s : String) : String :=
  String.join (s.data.map quotePlusChar)

/-- Model of `urllib.parse.urlencode` on a `str → str` dict (no `doseq`). -/
def urlencode (ps : List (String × String)) : String :=
  String.intercalate "&" (ps.map (fun kv => quote_plus kv.1 ++ "=" ++ quote_plus kv.2))

/-- Query merging (both handlers): a falsy (empty) parameter dict leaves
the target URL untouched; otherwise the encoded parameters are appended
with `&` when the URL already contains a `?`, else with `?`. -/
def mergeQuery (targetUrl : String) (ps : List (String × String)) : String :=
  if ps.isEmpty then targetUrl
  else targetUrl ++ (if pyContainsChar targetUrl '?' then "&" else "?") ++ urlencode ps

/-- The generic route's outbound parameter dict
(`{k: v for k, v in req.params.items() if k != '__proxy_scheme'}`). -/
def genericQueryParams (ps : List (String × String)) : List (String × String) :=
  ps.filter (fun kv => kv.1 ≠ "__proxy_scheme")

/-- Outbound URL of the generic route after query merging. -/
def genericMergedUrl (targetUrl : String) (ps : List (String × String)) : String :=
  mergeQuery targetUrl (genericQueryParams ps)

/-- Outbound URL of the OData route after query merging: the whole inbound
parameter dict (`dict(req.params)`) is appended. -/
def odataMergedUrl (targetUrl : String) (ps : List (String × String)) : String :=
  mergeQuery targetUrl ps

/-! ## Header rewriting -/

/-- The loop `for key, value in req.headers.items(): if key.lower() not in
drop: headers[key] = value`, started from an initial dict. -/
def buildHeaders (drop : List String) (init : List (String × String))
    (hs : List (String × String)) : List (String × String) :=
  hs.foldl (fun acc kv =>
    if drop.contains (pyLower kv.1) then acc else dictInsert acc kv.1 kv.2) init

/-- Hop-by-hop request headers dropped by both handlers. -/
def hopByHopDrop : List String :=
  ["host", "connection", "content-length", "transfer-encoding"]

/-- Outbound request headers of the generic route. -/
def genericHeaders (hs : List (String × String)) : List (String × String) :=
  buildHeaders hopByHopDrop [] hs

/-- The OData route's forced header defaults. -/
def odataBaseHeaders : List (String × String) :=
  [("Accept", "application/json;odata.metadata=minimal"),
   ("Content-Type", "application/json"),
   ("OData-Version", "4.0")]

/-- Inbound header keys dropped by the OData route. -/
def odataDrop : List String :=
  ["host", "connection", "content-length", "transfer-encoding",
   "accept", "content-type"]

/-- Outbound request headers of the OData route. -/
def odataHeaders (hs : List (String × String)) : List (String × String) :=
  buildHeaders odataDrop odataBaseHeaders hs

/-- Response headers dropped before relaying a downstream response. -/
def responseDrop : List String :=
  ["content-encoding", "content-length", "transfer-encoding", "connection"]

/-! ## Bodies -/

/-- Body selection of the generic route: only `POST`/`PUT`/`PATCH` carry
one, and a failing `req.get_body()` is swallowed (the body stays `None`). -/
def genericRequestBody (method : String) (br : Except String String) :
    Option String :=
  if ["POST", "PUT", "PATCH"].contains method then br.toOption else none

/-- Body selection of the OData route: `POST` only. -/
def odataRequestBody (method : String) (br : Except String String) :
    Option String :=
  if method = "POST" then br.toOption else none

/-! ## Requests, responses and the two handlers -/

/-- An inbound `func.HttpRequest` as the handlers consume it:
`req.route_params.get('endpoint')`, the query-parameter dict, the header
dict, the method string, and the outcome `req.get_body()` would have. -/
structure HttpRequest where
  routeEndpoint : Option String
  params : List (String × String)
  headers : List (String × String)
  method : String
  bodyResult : Except String String

/-- The downstream `requests` response as consumed: status, headers
(case-insensitive lookups via `ciGet`), raw content. -/
structure DownstreamResponse where
  statusCode : Nat
  headers : List (String × String)
  content : String

/-- Outcome of `requests.request(...)`: a response, a raised
`requests.exceptions.RequestException`, or any other raised exception. -/
inductive DownstreamResult where
  | success (r : DownstreamResponse)
  | requestException (msg : String)
  | otherException (msg : String)

/-- The outbound call the handler has prepared: method, merged URL,
rewritten headers, optional body, and the `verify=` flag. -/
structure OutboundRequest where
  method : String
  url : String
  headers : List (String × String)
  body : Option String
  verify : Bool

/-- The network is an oracle from the prepared outbound call to what
`requests.request` does with it. -/
def NetOracle := OutboundRequest → DownstreamResult

/-- An outbound `func.HttpResponse`. -/
structure HttpResponse where
  body : String
  statusCode : Nat
  headers : List (String × String)
  mimetype : String
deriving DecidableEq, Repr

/-- Lowercase hex digit. -/
def hexDigitLower (n : Nat) : Char :=
  if n < 10 then Char.ofNat (48 + n) else Char.ofNat (87 + n)

/-- One character of `json.dumps`'s default (`ensure_ascii`) string
escaping.  Astral characters would really be escaped as a surrogate pair;
that detail is elided (no claim reaches it). -/
def jsonEscapeChar (c : Char) : String :=
  if c = '"' then "\\\""
  else if c = '\\' then "\\\\"
  else if c = '\n' then "\\n"
  else if c = '\r' then "\\r"
  else if c = '\t' then "\\t"
  else if c.toNat = 8 then "\\b"
  else if c.toNat = 12 then "\\f"
  else if c.toNat < 0x20 || c.toNat > 0x7e then
    "\\u" ++ String.mk [hexDigitLower (c.toNat / 4096 % 16),
      hexDigitLower (c.toNat / 256 % 16), hexDigitLower (c.toNat / 16 % 16),
      hexDigitLower (c.toNat % 16)]
  else String.singleton c

/-- Model of `json.dumps({"error": msg})`. -/
def jsonDumpsError (msg : String) : String :=
  "\x7b\"error\": \"" ++ String.join (msg.data.map jsonEscapeChar) ++ "\"\x7d"

/-- Model of `func.HttpResponse(json.dumps({"error": msg}), status_code=code,
mimetype="application/json")`. -/
def mkError (code : Nat) (msg : String) : HttpResponse :=
  { body := jsonDumpsError msg, statusCode := code, headers := [],
    mimetype := "application/json" }

/-- Relaying of a successful downstream response (both handlers): status
and content verbatim, headers filtered through `responseDrop`, mimetype
from the downstream `content-type` defaulting to `application/json`. -/
def passThrough (r : DownstreamResponse) : HttpResponse :=
  { body := r.content, statusCode := r.statusCode,
    headers := buildHeaders responseDrop [] r.headers,
    mimetype := (ciGet r.headers "content-type").getD "application/json" }

/-- Everything `proxy_function` does before the outbound call, in source
order: endpoint presence, scheme resolution, allowlist check, query merge,
header/body rewriting.  Early returns become `.error`. -/
def proxy_plan (req : HttpRequest) : Except HttpResponse OutboundRequest :=
  match req.routeEndpoint with
  | none => .error (mkError 400 "No endpoint specified")
  | some endpoint =>
    if !pyNonEmpty endpoint then .error (mkError 400 "No endpoint specified")
    else
      match resolveTarget endpoint (dictGet req.params "__proxy_scheme") with
      | .error msg => .error (mkError 400 msg)
      | .ok target =>
        if !is_allowed target then
          .error (mkError 403 ("Endpoint not allowed: " ++ target))
        else
          let url := genericMergedUrl target req.params
          let method := pyUpper req.method
          .ok { method := method, url := url,
                headers := genericHeaders req.headers,
                body := genericRequestBody method req.bodyResult,
                verify := pyStartsWith url "https://" }

/-- The handler `proxy_function`: the plan, then the downstream call, then the
`except` clauses mapping `RequestException` to 502 and anything else
to 500. -/
def proxy_function (req : HttpRequest) (net : NetOracle) : HttpResponse :=
  match proxy_plan req with
  | .error r => r
  | .ok ob =>
    match net ob with
    | .success dr => passThrough dr
    | .requestException e => mkError 502 ("Request failed: " ++ e)
    | .otherException e => mkError 500 ("Internal server error: " ++ e)

/-- Everything `odata_proxy_function` does before the outbound call, in
source order.  Scheme resolution never consults `__proxy_scheme`, and the
merged query keeps the whole inbound parameter dict. -/
def odata_plan (req : HttpRequest) : Except HttpResponse OutboundRequest :=
  match req.routeEndpoint with
  | none => .error (mkError 400 "No OData endpoint specified")
  | some endpoint =>
    if !pyNonEmpty endpoint then .error (mkError 400 "No OData endpoint specified")
    else
      let target := odataResolveTarget endpoint
      if !is_allowed target then
        .error (mkError 403 ("OData endpoint not allowed: " ++ target))
      else
        let url := odataMergedUrl target req.params
        let method := pyUpper req.method
        .ok { method := method, url := url,
              headers := odataHeaders req.headers,
              body := odataRequestBody method req.bodyResult,
              verify := pyStartsWith url "https://" }

/-- The handler `odata_proxy_function`: plan, downstream call, `except` clauses. -/
def odata_proxy_function (req : HttpRequest) (net : NetOracle) : HttpResponse :=
  match odata_plan req with
  | .error r => r
  | .ok ob =>
    match net ob with
    | .success dr => passThrough dr
    | .requestException e => mkError 502 ("OData request failed: " ++ e)
    | .otherException e => mkError 500 ("Unexpected error in OData proxy: " ++ e)

/-! ## Concrete oracles for counterexamples and witnesses -/

/-- A downstream oracle that answers 200 and echoes the URL it was called
with as the response content, making the outbound URL observable. -/
def echoUrlNet : NetOracle := fun ob =>
  .success { statusCode := 200, headers := [], content := ob.url }

/-! ## C3 and C10: generic-route scheme resolution -/

/-- C3 counterexample: the claim demands that an override that is present
with any value other than `http`/`https` fail with a 400; but a present,
empty-string override is falsy in Python, so `resolveTarget
"api.example.com" (some "")` resolves to the `https` default and the
request succeeds (here with the echo oracle's 200) instead of failing. -/
theorem resolver_empty_override_counterexample :
    resolveTarget "api.example.com" (some "") = .ok "https://api.example.com"
    ∧ (proxy_function
        { routeEndpoint := some "api.example.com",
          params := [("__proxy_scheme", "")], headers := [],
          method := "GET", bodyResult := .ok "" } echoUrlNet).statusCode = 200 :=
  ⟨rfl, by decide⟩

/-- C3 amended: target resolution on the generic route uses a
`http://`/`https://` endpoint verbatim; otherwise a present **non-empty**
override equal (case-insensitively) to `http`/`https` gives
`{scheme}://{endpoint}`; a present non-empty override with any other value
is the invalid-scheme error, surfaced by the handler as a 400 with no
downstream call; otherwise (absent or empty override) the default scheme is
`https`. -/
theorem resolver_behavior (e : String) (ov : Option String) :
    ((pyStartsWith e "http://" || pyStartsWith e "https://") = true →
      resolveTarget e ov = .ok e)
    ∧ ((pyStartsWith e "http://" || pyStartsWith e "https://") = false →
      (schemeOverrideTruthy ov = false →
        resolveTarget e ov = .ok ("https://" ++ e))
      ∧ (∀ s, ov = some s → pyNonEmpty s = true →
          (pyLower s = "http" ∨ pyLower s = "https") →
          resolveTarget e ov = .ok (pyLower s ++ "://" ++ e))
      ∧ (∀ s, ov = some s → pyNonEmpty s = true →
          pyLower s ≠ "http" → pyLower s ≠ "https" →
          resolveTarget e ov = .error ("Invalid scheme: " ++ s ++
            ". Only 'http' and 'https' are allowed.")))
    ∧ (∀ req net msg, req.routeEndpoint = some e → pyNonEmpty e = true →
        dictGet req.params "__proxy_scheme" = ov →
        resolveTarget e ov = .error msg →
        proxy_function req net = mkError 400 msg) := by
  refine ⟨?_, ?_, ?_⟩
  · intro h
    simp [resolveTarget, h]
  · intro h
    refine ⟨?_, ?_, ?_⟩
    · intro hf
      simp [resolveTarget, h, hf]
    · rintro s rfl hne hval
      have ht : schemeOverrideTruthy (some s) = true := by
        simpa [schemeOverrideTruthy] using hne
      rcases hval with hv | hv <;>
        simp [resolveTarget, h, ht, Option.getD, hv]
    · rintro s rfl hne hv1 hv2
      have ht : schemeOverrideTruthy (some s) = true := by
        simpa [schemeOverrideTruthy] using hne
      simp [resolveTarget, h, ht, Option.getD, hv1, hv2]
  · intro req net msg hroute hne hov herr
    have hnotempty : (!pyNonEmpty e) = false := by simp [hne]
    simp [proxy_function, proxy_plan, hroute, hnotempty, hov, herr]

/-- Witness for C3's amended theorem at `resolve("api.example.com",
"ftp")`, the specification's own failing example. -/
theorem resolver_behavior_witness :
    resolveTarget "api.example.com" (some "ftp") =
      .error "Invalid scheme: ftp. Only 'http' and 'https' are allowed." :=
  ((resolver_behavior "api.example.com" (some "ftp")).2.1 (by decide)).2.2
    "ftp" rfl (by decide) (by decide) (by decide)

/-- C10: on the generic route a `__proxy_scheme` parameter that is present
with an empty-string value is falsy, hence treated as if absent: a
scheme-less endpoint defaults to `https`, resolution never errors, and the
only failure the request can still hit before the downstream call is the
allowlist 403 (or the missing-endpoint 400, excluded here by hypothesis). -/
theorem empty_override_defaults_https (e : String)
    (h : (pyStartsWith e "http://" || pyStartsWith e "https://") = false) :
    resolveTarget e (some "") = .ok ("https://" ++ e)
    ∧ (∀ msg, resolveTarget e (some "") ≠ .error msg)
    ∧ (∀ req r, req.routeEndpoint = some e → pyNonEmpty e = true →
        dictGet req.params "__proxy_scheme" = some "" →
        proxy_plan req = .error r →
        r = mkError 403 ("Endpoint not allowed: " ++ ("https://" ++ e))) := by
  have hres : resolveTarget e (some "") = .ok ("https://" ++ e) := by
    simp [resolveTarget, h, schemeOverrideTruthy, pyNonEmpty]
  refine ⟨hres, ?_, ?_⟩
  · intro msg hmsg
    rw [hres] at hmsg
    exact Except.noConfusion hmsg
  · intro req r hroute hne hov hplan
    have hnotempty : (!pyNonEmpty e) = false := by simp [hne]
    simp only [proxy_plan, hroute, hnotempty, Bool.false_eq_true, if_false,
      hov, hres] at hplan
    split at hplan
    · cases hplan
      rfl
    · cases hplan

/-- Witness for C10 at endpoint `api.example.com`. -/
theorem empty_override_defaults_https_witness :
    resolveTarget "api.example.com" (some "") = .ok "https://api.example.com" :=
  (empty_override_defaults_https "api.example.com" (by decide)).1

/-! ## C2 and C4: query-parameter merging -/

/-- C2 counterexample: the claim says `__proxy_scheme` is removed on either
entry point and never appears in the outbound URL; but the OData handler
merges `dict(req.params)` unfiltered, so the parameter is forwarded
downstream (the echo oracle exposes the outbound URL as the body). -/
theorem scheme_param_forwarded_counterexample :
    (odata_proxy_function
      { routeEndpoint := some "services.odata.org/V4",
        params := [("__proxy_scheme", "http")], headers := [],
        method := "GET", bodyResult := .ok "" } echoUrlNet).body
    = "https://services.odata.org/V4?__proxy_scheme=http" := by decide

/-- C2 amended: the generic route removes `__proxy_scheme` before query
merging (its outbound parameter dict is exactly the inbound one without
that key); the OData route does not remove it and merges the whole inbound
parameter dict, `__proxy_scheme` included. -/
theorem scheme_param_merging (t : String) (ps : List (String × String)) :
    (∀ kv : String × String,
      kv ∈ genericQueryParams ps ↔ kv ∈ ps ∧ kv.1 ≠ "__proxy_scheme")
    ∧ genericMergedUrl t ps = mergeQuery t (genericQueryParams ps)
    ∧ odataMergedUrl t ps = mergeQuery t ps := by
  refine ⟨?_, rfl, rfl⟩
  intro kv
  simp [genericQueryParams, List.mem_filter]

/-- Witness for C2's amended theorem: the non-override parameter survives
the generic route's filter. -/
theorem scheme_param_merging_witness :
    ("a", "1") ∈ genericQueryParams [("__proxy_scheme", "ftp"), ("a", "1")] :=
  ((scheme_param_merging "https://x.com"
      [("__proxy_scheme", "ftp"), ("a", "1")]).1 ("a", "1")).mpr
    ⟨by decide, by decide⟩

/-- C4 counterexample: the claim says query merging appends every inbound
parameter **except the scheme-override key** on both entry points; on the
OData route the scheme-override key is appended too. -/
theorem query_merge_claim_counterexample :
    odataMergedUrl "https://x.com" [("__proxy_scheme", "ftp"), ("a", "1")]
      = "https://x.com?__proxy_scheme=ftp&a=1" := by decide

/-- C4 amended: query merging appends every inbound parameter — except, on
the generic route only, the scheme-override key; the OData route appends
all of them — joined with `&` when the target URL already contains `?` and
with `?` otherwise, with standard percent-encoding (`quote_plus`); an empty
parameter dict leaves the URL untouched.  Includes the specification's
concrete merge examples and a percent-encoding example. -/
theorem query_merge_behavior (t : String) (ps : List (String × String)) :
    (ps = [] → mergeQuery t ps = t)
    ∧ (ps ≠ [] → pyContainsChar t '?' = true →
        mergeQuery t ps = t ++ "&" ++ urlencode ps)
    ∧ (ps ≠ [] → pyContainsChar t '?' = false →
        mergeQuery t ps = t ++ "?" ++ urlencode ps)
    ∧ genericMergedUrl t ps = mergeQuery t (ps.filter
        (fun kv => kv.1 ≠ "__proxy_scheme"))
    ∧ odataMergedUrl t ps = mergeQuery t ps
    ∧ genericMergedUrl "https://x.com" [("a", "1")] = "https://x.com?a=1"
    ∧ genericMergedUrl "https://x.com?b=2" [("a", "1")] = "https://x.com?b=2&a=1"
    ∧ mergeQuery "https://x.com" [("a", "hello world/x")]
        = "https://x.com?a=hello+world%2Fx" := by
  refine ⟨?_, ?_, ?_, rfl, rfl, by decide, by decide, by decide⟩
  · rintro rfl
    rfl
  · intro hne hq
    have : ps.isEmpty = false := by
      cases ps
      · exact absurd rfl hne
      · rfl
    simp [mergeQuery, this, hq]
  · intro hne hq
    have : ps.isEmpty = false := by
      cases ps
      · exact absurd rfl hne
      · rfl
    simp [mergeQuery, this, hq]

/-- Witness for C4's amended theorem at an empty parameter dict. -/
theorem query_merge_behavior_witness :
    mergeQuery "https://x.com" ([] : List (String × String)) = "https://x.com" :=
  (query_merge_behavior "https://x.com" []).1 rfl

/-! ## C6 and C7: header rewriting -/

lemma dictInsert_append {acc : List (String × String)} {k v : String}
    (h : k ∉ acc.map Prod.fst) : dictInsert acc k v = acc ++ [(k, v)] := by
  induction acc with
  | nil => rfl
  | cons kv rest ih =>
    simp only [List.map_cons, List.mem_cons] at h
    push_neg at h
    have hne : ¬(kv.1 = k) := fun he => h.1 he.symm
    simp only [dictInsert, if_neg hne, List.cons_append]
    rw [ih h.2]

lemma buildHeaders_cons (drop : List String) (init : List (String × String))
    (kv : String × String) (rest : List (String × String)) :
    buildHeaders drop init (kv :: rest) =
      buildHeaders drop (if drop.contains (pyLower kv.1) then init
        else dictInsert init kv.1 kv.2) rest := rfl

/-- The header-building loop, when the kept inbound keys are distinct and
do not collide with the keys of the initial dict, appends exactly the
filtered inbound headers (in order, values unchanged) to the initial
dict. -/
lemma buildHeaders_eq_append (drop : List String) :
    ∀ (hs init : List (String × String)),
    ((hs.filter (fun kv => !(drop.contains (pyLower kv.1)))).map Prod.fst).Nodup →
    (∀ k ∈ (hs.filter (fun kv => !(drop.contains (pyLower kv.1)))).map Prod.fst,
      k ∉ init.map Prod.fst) →
    buildHeaders drop init hs =
      init ++ hs.filter (fun kv => !(drop.contains (pyLower kv.1))) := by
  intro hs
  induction hs with
  | nil =>
    intro init _ _
    simp [buildHeaders]
  | cons kv rest ih =>
    intro init hnd hdis
    by_cases hdrop : drop.contains (pyLower kv.1) = true
    · have hfilter : (kv :: rest).filter
          (fun kv => !(drop.contains (pyLower kv.1)))
          = rest.filter (fun kv => !(drop.contains (pyLower kv.1))) := by
        rw [List.filter_cons, hdrop]
        rfl
      rw [hfilter] at hnd hdis ⊢
      rw [buildHeaders_cons, if_pos hdrop]
      exact ih init hnd hdis
    · have hdropf : drop.contains (pyLower kv.1) = false :=
        Bool.not_eq_true _ ▸ eq_false_of_ne_true hdrop
      have hfilter : (kv :: rest).filter
          (fun kv => !(drop.contains (pyLower kv.1)))
          = kv :: rest.filter (fun kv => !(drop.contains (pyLower kv.1))) := by
        rw [List.filter_cons, hdropf]
        rfl
      rw [hfilter] at hnd hdis ⊢
      rw [buildHeaders_cons, if_neg hdrop]
      have hk : kv.1 ∉ init.map Prod.fst := hdis kv.1 (by simp)
      rw [dictInsert_append hk]
      rw [List.map_cons, List.nodup_cons] at hnd
      have hdis' : ∀ k ∈ (rest.filter
          (fun kv => !(drop.contains (pyLower kv.1)))).map Prod.fst,
          k ∉ (init ++ [(kv.1, kv.2)]).map Prod.fst := by
        intro k hkmem hsplit
        rw [List.map_append] at hsplit
        rcases List.mem_append.mp hsplit with hinit | hkv1
        · exact hdis k (by rw [List.map_cons]; exact List.mem_cons_of_mem _ hkmem) hinit
        · have hk1 : k = kv.1 := by simpa using hkv1
          exact hnd.1 (hk1 ▸ hkmem)
      rw [ih (init ++ [(kv.1, kv.2)]) hnd.2 hdis']
      simp

/-- C6 counterexample: on the OData variant the outbound headers are not
the inbound headers minus the four hop-by-hop keys: an inbound `Accept`
header is also dropped and the three forced headers are injected. -/
theorem header_filtering_counterexample :
    odataHeaders [("Accept", "text/html")] = odataBaseHeaders
    ∧ odataHeaders [("Accept", "text/html")] ≠ [("Accept", "text/html")] := by
  decide

/-- C6 amended: on the **generic** variant the outbound headers are exactly
the inbound headers minus those whose key lowercases to `host`,
`connection`, `content-length` or `transfer-encoding`; every remaining
header passes through unchanged and in order.  (On the OData variant
`accept`/`content-type` are additionally dropped and forced headers are
injected — see the counterexample.) -/
theorem header_filtering (hs : List (String × String))
    (hnd : (hs.map Prod.fst).Nodup) :
    genericHeaders hs =
      hs.filter (fun kv => !(hopByHopDrop.contains (pyLower kv.1)))
    ∧ (∀ kv : String × String, kv ∈ genericHeaders hs ↔
        kv ∈ hs ∧ hopByHopDrop.contains (pyLower kv.1) = false) := by
  have hsub : ((hs.filter
      (fun kv => !(hopByHopDrop.contains (pyLower kv.1)))).map Prod.fst).Nodup :=
    hnd.sublist ((List.filter_sublist hs).map Prod.fst)
  have heq := buildHeaders_eq_append hopByHopDrop hs [] hsub (by simp)
  have heq' : genericHeaders hs =
      hs.filter (fun kv => !(hopByHopDrop.contains (pyLower kv.1))) := by
    simpa [genericHeaders] using heq
  refine ⟨heq', ?_⟩
  intro kv
  rw [heq', List.mem_filter]
  simp

/-- Witness for C6's amended theorem at the specification's example: of
`Host`, `Connection`, `X-Custom` only `X-Custom` is forwarded. -/
theorem header_filtering_witness :
    genericHeaders [("Host", "h"), ("Connection", "c"), ("X-Custom", "v")]
      = [("X-Custom", "v")] :=
  (header_filtering [("Host", "h"), ("Connection", "c"), ("X-Custom", "v")]
    (by decide)).1.trans (by decide)

/-- C7 counterexample: an inbound `OData-Version` header (whose key is not
in the OData drop list) overwrites the forced `OData-Version: 4.0` entry,
so the outbound headers do not always contain `OData-Version: 4.0`. -/
theorem odata_version_override_counterexample :
    ("OData-Version", "4.0") ∉ odataHeaders [("OData-Version", "3.0")]
    ∧ odataHeaders [("OData-Version", "3.0")] =
      [("Accept", "application/json;odata.metadata=minimal"),
       ("Content-Type", "application/json"), ("OData-Version", "3.0")] := by
  decide

/-- C7 amended: on the OData route the outbound headers are the three
forced entries followed by the inbound headers that survive the drop list
(hop-by-hop plus `accept`/`content-type`, case-insensitively); in
particular the forced `Accept` and `Content-Type` values are always
present and cannot be overridden, and `OData-Version: 4.0` is present
provided no inbound header carries the exact key `OData-Version` (such a
header overrides the default — see the counterexample). -/
theorem odata_forced_headers (hs : List (String × String))
    (hnd : (hs.map Prod.fst).Nodup)
    (hno : "OData-Version" ∉ hs.map Prod.fst) :
    odataHeaders hs = odataBaseHeaders ++
      hs.filter (fun kv => !(odataDrop.contains (pyLower kv.1)))
    ∧ ("Accept", "application/json;odata.metadata=minimal") ∈ odataHeaders hs
    ∧ ("Content-Type", "application/json") ∈ odataHeaders hs
    ∧ ("OData-Version", "4.0") ∈ odataHeaders hs
    ∧ (∀ kv ∈ hs, odataDrop.contains (pyLower kv.1) = true →
        kv ∉ odataHeaders hs ∨ kv ∈ odataBaseHeaders) := by
  have hsub : ((hs.filter
      (fun kv => !(odataDrop.contains (pyLower kv.1)))).map Prod.fst).Nodup :=
    hnd.sublist ((List.filter_sublist hs).map Prod.fst)
  have hdis : ∀ k ∈ (hs.filter
      (fun kv => !(odataDrop.contains (pyLower kv.1)))).map Prod.fst,
      k ∉ odataBaseHeaders.map Prod.fst := by
    intro k hkmem
    simp only [List.mem_map] at hkmem
    obtain ⟨kv, hkv, rfl⟩ := hkmem
    have hkept : pyLower kv.1 ∉ odataDrop := by
      simpa using (List.mem_filter.mp hkv).2
    simp only [odataBaseHeaders, List.map_cons, List.map_nil, List.mem_cons,
      List.not_mem_nil, or_false]
    rintro (h1 | h2 | h3)
    · exact hkept (by rw [h1]; decide)
    · exact hkept (by rw [h2]; decide)
    · exact hno (h3 ▸ (List.mem_map.mpr ⟨kv, (List.mem_filter.mp hkv).1, rfl⟩))
  have heq : odataHeaders hs = odataBaseHeaders ++
      hs.filter (fun kv => !(odataDrop.contains (pyLower kv.1))) := by
    simpa [odataHeaders] using buildHeaders_eq_append odataDrop hs odataBaseHeaders hsub hdis
  refine ⟨heq, ?_, ?_, ?_, ?_⟩
  · rw [heq]; exact List.mem_append_left _ (by simp [odataBaseHeaders])
  · rw [heq]; exact List.mem_append_left _ (by simp [odataBaseHeaders])
  · rw [heq]; exact List.mem_append_left _ (by simp [odataBaseHeaders])
  · intro kv hkv hdropped
    rw [heq]
    by_cases hbase : kv ∈ odataBaseHeaders
    · exact Or.inr hbase
    · refine Or.inl ?_
      intro hmem
      rcases List.mem_append.mp hmem with hl | hr
      · exact hbase hl
      · have := (List.mem_filter.mp hr).2
        rw [hdropped] at this
        exact absurd this (by simp)

/-- Witness for C7's amended theorem on a request whose inbound headers
carry no `OData-Version` key. -/
theorem odata_forced_headers_witness :
    ("OData-Version", "4.0") ∈ odataHeaders [("X-Custom", "v")] :=
  (odata_forced_headers [("X-Custom", "v")] (by decide) (by decide)).2.2.2.1

/-! ## C8: body inclusion policy -/

lemma genericRequestBody_error (m e : String) :
    genericRequestBody m (.error e) = none := by
  simp [genericRequestBody, Except.toOption]

lemma odataRequestBody_error (m e : String) :
    odataRequestBody m (.error e) = none := by
  simp [odataRequestBody, Except.toOption]

/-- C8: the outbound body is included exactly when the (uppercased) method
is `POST`/`PUT`/`PATCH` on the generic variant and exactly when it is
`POST` on the OData variant; for other methods the body is omitted even if
the inbound request carries one; and a failing body read leaves both plans
identical to the successful-read plans except for an absent body — in
particular it produces no error response. -/
theorem body_inclusion_policy (m : String) (br : Except String String) :
    (∀ b, br = .ok b →
      ((genericRequestBody (pyUpper m) br = some b) ↔
        (["POST", "PUT", "PATCH"].contains (pyUpper m)) = true)
      ∧ ((odataRequestBody (pyUpper m) br = some b) ↔ pyUpper m = "POST"))
    ∧ (∀ e, br = .error e →
      genericRequestBody (pyUpper m) br = none
      ∧ odataRequestBody (pyUpper m) br = none)
    ∧ (∀ (req : HttpRequest) (e b : String), req.bodyResult = .error e →
      proxy_plan req = Except.map (fun ob => { ob with body := none })
        (proxy_plan { req with bodyResult := .ok b })
      ∧ odata_plan req = Except.map (fun ob => { ob with body := none })
        (odata_plan { req with bodyResult := .ok b })) := by
  refine ⟨?_, ?_, ?_⟩
  · rintro b rfl
    constructor
    · by_cases hc : (["POST", "PUT", "PATCH"].contains (pyUpper m)) = true
      · have hval : genericRequestBody (pyUpper m) (.ok b) = some b := by
          unfold genericRequestBody
          rw [if_pos hc]
          rfl
        exact ⟨fun _ => hc, fun _ => hval⟩
      · have hval : genericRequestBody (pyUpper m) (.ok b) = none := by
          unfold genericRequestBody
          rw [if_neg hc]
        refine ⟨fun h => ?_, fun h => absurd h hc⟩
        rw [hval] at h
        exact Option.noConfusion h
    · by_cases hc : pyUpper m = "POST"
      · have hval : odataRequestBody (pyUpper m) (.ok b) = some b := by
          unfold odataRequestBody
          rw [if_pos hc]
          rfl
        exact ⟨fun _ => hc, fun _ => hval⟩
      · have hval : odataRequestBody (pyUpper m) (.ok b) = none := by
          unfold odataRequestBody
          rw [if_neg hc]
        refine ⟨fun h => ?_, fun h => absurd h hc⟩
        rw [hval] at h
        exact Option.noConfusion h
  · rintro e rfl
    exact ⟨genericRequestBody_error _ _, odataRequestBody_error _ _⟩
  · intro req e b hbr
    constructor
    · cases hroute : req.routeEndpoint with
      | none => simp [proxy_plan, hroute, Except.map]
      | some ep =>
        by_cases hne : (!pyNonEmpty ep) = true
        · simp [proxy_plan, hroute, hne, Except.map]
        · cases hres : resolveTarget ep (dictGet req.params "__proxy_scheme") with
          | error msg => simp [proxy_plan, hroute, hne, hres, Except.map]
          | ok target =>
            by_cases hallow : (!is_allowed target) = true
            · simp [proxy_plan, hroute, hne, hres, hallow, Except.map]
            · simp [proxy_plan, hroute, hne, hres, hallow, Except.map, hbr,
                genericRequestBody_error]
    · cases hroute : req.routeEndpoint with
      | none => simp [odata_plan, hroute, Except.map]
      | some ep =>
        by_cases hne : (!pyNonEmpty ep) = true
        · simp [odata_plan, hroute, hne, Except.map]
        · by_cases hallow : (!is_allowed (odataResolveTarget ep)) = true
          · simp [odata_plan, hroute, hne, hallow, Except.map]
          · simp [odata_plan, hroute, hne, hallow, Except.map, hbr,
              odataRequestBody_error]

/-- Witness for C8: an uppercased `post` carries its body on both
variants. -/
theorem body_inclusion_policy_witness :
    genericRequestBody (pyUpper "post") (.ok "payload") = some "payload"
    ∧ odataRequestBody (pyUpper "post") (.ok "payload") = some "payload" :=
  ⟨(((body_inclusion_policy "post" (.ok "payload")).1 "payload" rfl).1).mpr
      (by decide),
   (((body_inclusion_policy "post" (.ok "payload")).1 "payload" rfl).2).mpr
      (by decide)⟩

/-! ## C9: the OData route never consults the scheme override -/

/-- C9: OData-route scheme resolution takes no override input at all — a
scheme-less endpoint resolves to `https://{endpoint}` whatever
`__proxy_scheme` holds — and the only error responses the OData plan can
produce are the missing-endpoint 400 and the allowlist 403: an invalid
`__proxy_scheme` value can never cause an invalid-scheme 400 on this
route. -/
theorem odata_ignores_scheme_override :
    (∀ e, (pyStartsWith e "http://" || pyStartsWith e "https://") = false →
      odataResolveTarget e = "https://" ++ e)
    ∧ (∀ (req : HttpRequest) (r : HttpResponse), odata_plan req = .error r →
      r = mkError 400 "No OData endpoint specified" ∨
      ∃ u, r = mkError 403 ("OData endpoint not allowed: " ++ u)) := by
  constructor
  · intro e h
    simp [odataResolveTarget, h]
  · intro req r hplan
    cases hroute : req.routeEndpoint with
    | none =>
      simp only [odata_plan, hroute, Except.error.injEq] at hplan
      exact Or.inl hplan.symm
    | some ep =>
      by_cases hne : (!pyNonEmpty ep) = true
      · simp only [odata_plan, hroute, hne, if_true, Except.error.injEq] at hplan
        exact Or.inl hplan.symm
      · by_cases hallow : (!is_allowed (odataResolveTarget ep)) = true
        · simp only [odata_plan, hroute, hne, hallow, if_true, Bool.false_eq_true,
            if_false, Except.error.injEq] at hplan
          exact Or.inr ⟨odataResolveTarget ep, hplan.symm⟩
        · simp only [odata_plan, hroute, hne, hallow, Bool.false_eq_true,
            if_false] at hplan
          exact absurd hplan (by simp)

/-- Witness for C9: a scheme-less endpoint resolves to `https` on the OData
route, and a request carrying an invalid `__proxy_scheme` value gets a
passthrough 200, not an invalid-scheme 400. -/
theorem odata_ignores_scheme_override_witness :
    odataResolveTarget "services.odata.org/V4" = "https://services.odata.org/V4" :=
  odata_ignores_scheme_override.1 "services.odata.org/V4" (by decide)

/-! ## C5: error-response taxonomy -/

/-- C5: every failing request on either entry point gets exactly one
response whose body is `json.dumps({"error": msg})` with content type
`application/json` (that is the shape of `mkError`, spelled out in the last
conjunct), with status 400 for a missing endpoint or invalid scheme
override, 403 for an allowlist rejection, 502 for a downstream
`RequestException` (no retry: the oracle is consulted exactly once, on the
single prepared request), and 500 for any other downstream-raised failure;
successful downstream responses are passed through.  Totality (exactly one
outbound response per request) is inherent: both handlers are functions
into `HttpResponse`. -/
theorem error_response_taxonomy (req : HttpRequest) (net : NetOracle) :
    ((req.routeEndpoint = none ∨ req.routeEndpoint = some "") →
      proxy_function req net = mkError 400 "No endpoint specified"
      ∧ odata_proxy_function req net = mkError 400 "No OData endpoint specified")
    ∧ (∀ e msg, req.routeEndpoint = some e → pyNonEmpty e = true →
        resolveTarget e (dictGet req.params "__proxy_scheme") = .error msg →
        proxy_function req net = mkError 400 msg)
    ∧ (∀ e target, req.routeEndpoint = some e → pyNonEmpty e = true →
        resolveTarget e (dictGet req.params "__proxy_scheme") = .ok target →
        is_allowed target = false →
        proxy_function req net = mkError 403 ("Endpoint not allowed: " ++ target))
    ∧ (∀ e, req.routeEndpoint = some e → pyNonEmpty e = true →
        is_allowed (odataResolveTarget e) = false →
        odata_proxy_function req net =
          mkError 403 ("OData endpoint not allowed: " ++ odataResolveTarget e))
    ∧ (∀ ob m, proxy_plan req = .ok ob → net ob = .requestException m →
        proxy_function req net = mkError 502 ("Request failed: " ++ m))
    ∧ (∀ ob m, proxy_plan req = .ok ob → net ob = .otherException m →
        proxy_function req net = mkError 500 ("Internal server error: " ++ m))
    ∧ (∀ ob dr, proxy_plan req = .ok ob → net ob = .success dr →
        proxy_function req net = passThrough dr)
    ∧ (∀ ob m, odata_plan req = .ok ob → net ob = .requestException m →
        odata_proxy_function req net = mkError 502 ("OData request failed: " ++ m))
    ∧ (∀ ob m, odata_plan req = .ok ob → net ob = .otherException m →
        odata_proxy_function req net =
          mkError 500 ("Unexpected error in OData proxy: " ++ m))
    ∧ (∀ ob dr, odata_plan req = .ok ob → net ob = .success dr →
        odata_proxy_function req net = passThrough dr)
    ∧ (∀ code msg, (mkError code msg).body = jsonDumpsError msg
        ∧ (mkError code msg).mimetype = "application/json"
        ∧ (mkError code msg).statusCode = code) := by
  refine ⟨?_, ?_, ?_, ?_, ?_, ?_, ?_, ?_, ?_, ?_, fun code msg => ⟨rfl, rfl, rfl⟩⟩
  · rintro (h | h)
    · exact ⟨by simp [proxy_function, proxy_plan, h],
        by simp [odata_proxy_function, odata_plan, h]⟩
    · have hempty : (!pyNonEmpty "") = true := by decide
      exact ⟨by simp [proxy_function, proxy_plan, h, hempty],
        by simp [odata_proxy_function, odata_plan, h, hempty]⟩
  · intro e msg h1 h2 h3
    have hne : (!pyNonEmpty e) = false := by simp [h2]
    simp [proxy_function, proxy_plan, h1, hne, h3]
  · intro e target h1 h2 h3 h4
    have hne : (!pyNonEmpty e) = false := by simp [h2]
    have hallow : (!is_allowed target) = true := by simp [h4]
    simp [proxy_function, proxy_plan, h1, hne, h3, hallow]
  · intro e h1 h2 h3
    have hne : (!pyNonEmpty e) = false := by simp [h2]
    have hallow : (!is_allowed (odataResolveTarget e)) = true := by simp [h3]
    simp [odata_proxy_function, odata_plan, h1, hne, hallow]
  · intro ob m hplan hnet
    simp [proxy_function, hplan, hnet]
  · intro ob m hplan hnet
    simp [proxy_function, hplan, hnet]
  · intro ob dr hplan hnet
    simp [proxy_function, hplan, hnet]
  · intro ob m hplan hnet
    simp [odata_proxy_function, hplan, hnet]
  · intro ob m hplan hnet
    simp [odata_proxy_function, hplan, hnet]
  · intro ob dr hplan hnet
    simp [odata_proxy_function, hplan, hnet]

/-- Witness for C5: a request with a missing endpoint capture gets the 400
error on both entry points, whatever the oracle would have answered. -/
theorem error_response_taxonomy_witness :
    proxy_function
      { routeEndpoint := none, params := [], headers := [], method := "GET",
        bodyResult := .ok "" } echoUrlNet
      = mkError 400 "No endpoint specified" :=
  ((error_response_taxonomy
    { routeEndpoint := none, params := [], headers := [], method := "GET",
      bodyResult := .ok "" } echoUrlNet).1 (Or.inl rfl)).1

end FunctionProxy
